import Mathlib

/-!
Verification of the redirect-prefixing middleware of the
govuk-prototype-kit-version-control repository.

The single piece of logic in the repository is the overridden
`res.redirect` installed in `src/app/views/v2/routing.js` (lines 8-13):

    res.redirect = function(url) {
      if (url.startsWith('/') && !url.startsWith(req.baseUrl)) {
        url = req.baseUrl + url;
      }
      return originalRedirect.call(this, url);
    };

JS strings are sequences of characters; we model them as `List Char`,
with JS `s.startsWith(p)` as `p.isPrefixOf s` and JS `a + b` as `a ++ b`.
`src/app/routes.js` mounts the route groups at `/v1` and `/v2`, which
Express exposes to the middleware as `req.baseUrl`.
-/

namespace VersionControl

/-- A JS string, modelled as its sequence of characters. -/
abbrev JSString := List Char

/-- JS `s.startsWith(p)`: `p` is an initial segment of `s`. -/
def jsStartsWith (s p : JSString) : Bool := p.isPrefixOf s

/-- The URL rewrite performed by the overridden `res.redirect` in
`src/app/views/v2/routing.js`: if `url` starts with `'/'` and does not
start with `req.baseUrl`, replace it with `req.baseUrl + url`;
otherwise leave it unchanged. -/
def redirectUrl (baseUrl url : JSString) : JSString :=
  if jsStartsWith url ['/'] && !(jsStartsWith url baseUrl) then baseUrl ++ url
  else url

/-- Mount path of the first route group (`src/app/routes.js` line 7). -/
def v1Base : JSString := "/v1".data

/-- Mount path of the second route group (`src/app/routes.js` line 8). -/
def v2Base : JSString := "/v2".data

/-- The redirect targets passed to `res.redirect` by the four handlers
registered on `subRouter` in `src/app/views/v2/routing.js`. -/
def handlerTargets : List JSString :=
  ["/question-2".data, "/question-1".data,
   "/nested/question-2".data, "/nested/question-1".data]

theorem jsStartsWith_append (p s : JSString) :
    jsStartsWith (p ++ s) p = true := by
  simp [jsStartsWith, List.isPrefixOf_iff_prefix]

/-- Claim C1: whenever the target starts with `/` and does not start with
the mount path, the rewritten URL is exactly the concatenation of the
mount path and the target. -/
theorem redirect_prepends_base (b p : JSString)
    (h1 : jsStartsWith p ['/'] = true) (h2 : jsStartsWith p b = false) :
    redirectUrl b p = b ++ p := by
  simp [redirectUrl, h1, h2]

/-- Claim C1 witness: the nested target `/nested/question-2` under `/v1`. -/
theorem redirect_prepends_base_witness :
    redirectUrl "/v1".data "/nested/question-2".data
      = "/v1".data ++ "/nested/question-2".data :=
  redirect_prepends_base _ _ (by decide) (by decide)

/-- Claim C2: for each of the four handler targets, the rewritten URL under
the `/v1` mount starts with `/v1/` and never with `/v2/`, and symmetrically
the rewritten URL under the `/v2` mount starts with `/v2/` and never with
`/v1/`. -/
theorem groups_never_cross_redirect (t : JSString) (ht : t ∈ handlerTargets) :
    (jsStartsWith (redirectUrl v1Base t) "/v1/".data = true ∧
     jsStartsWith (redirectUrl v1Base t) "/v2/".data = false) ∧
    (jsStartsWith (redirectUrl v2Base t) "/v2/".data = true ∧
     jsStartsWith (redirectUrl v2Base t) "/v1/".data = false) := by
  fin_cases ht <;> decide

/-- Claim C2 witness: the target `/question-2` of the `/question-1` handler. -/
theorem groups_never_cross_redirect_witness :
    (jsStartsWith (redirectUrl v1Base "/question-2".data) "/v1/".data = true ∧
     jsStartsWith (redirectUrl v1Base "/question-2".data) "/v2/".data = false) ∧
    (jsStartsWith (redirectUrl v2Base "/question-2".data) "/v2/".data = true ∧
     jsStartsWith (redirectUrl v2Base "/question-2".data) "/v1/".data = false) :=
  groups_never_cross_redirect _ (by decide)

/-- Claim C3: whenever the target starts with `/` and does not already start
with the mount path, the rewritten URL starts with the mount path. -/
theorem redirect_result_carries_base (b p : JSString)
    (h1 : jsStartsWith p ['/'] = true) (h2 : jsStartsWith p b = false) :
    jsStartsWith (redirectUrl b p) b = true := by
  rw [redirect_prepends_base b p h1 h2]
  exact jsStartsWith_append b p

/-- Claim C3 witness: the target `/question-1` under the `/v2` mount. -/
theorem redirect_result_carries_base_witness :
    jsStartsWith (redirectUrl "/v2".data "/question-1".data) "/v2".data
      = true :=
  redirect_result_carries_base _ _ (by decide) (by decide)

/-- Claim C4: with mount path `/v1` and target `/v10/question-1`, the
substring-based check fires (the target is absolute and raw-string-starts
with `/v1`), so the target is passed through unchanged even though `/v1` is
not a whole path segment of it. -/
theorem raw_substring_check_misfires :
    jsStartsWith "/v10/question-1".data ['/'] = true ∧
    jsStartsWith "/v10/question-1".data "/v1".data = true ∧
    redirectUrl "/v1".data "/v10/question-1".data = "/v10/question-1".data := by
  decide

/-- Claim C5: a target that starts with `/` and already starts with the
mount path is passed through unchanged. -/
theorem already_based_unchanged (b p : JSString)
    (h1 : jsStartsWith p ['/'] = true) (h2 : jsStartsWith p b = true) :
    redirectUrl b p = p := by
  simp [redirectUrl, h2]

/-- Claim C5 witness: under `/v1` the already-prefixed target
`/v1/question-2` stays `/v1/question-2`, not `/v1/v1/question-2`. -/
theorem already_based_unchanged_witness :
    redirectUrl "/v1".data "/v1/question-2".data = "/v1/question-2".data ∧
    redirectUrl "/v1".data "/v1/question-2".data ≠ "/v1/v1/question-2".data :=
  ⟨already_based_unchanged _ _ (by decide) (by decide), by decide⟩

/-- Claim C6: a target that does not start with `/` is passed through
unchanged. -/
theorem nonabsolute_unchanged (b p : JSString)
    (h : jsStartsWith p ['/'] = false) :
    redirectUrl b p = p := by
  simp [redirectUrl, h]

/-- Claim C6 witness: the relative target `question-2` under `/v1`. -/
theorem nonabsolute_unchanged_witness :
    redirectUrl "/v1".data "question-2".data = "question-2".data :=
  nonabsolute_unchanged _ _ (by decide)

/-- Claim C7: the rewrite is idempotent for every mount path and every
target: applying it twice equals applying it once. -/
theorem redirectUrl_idempotent (b p : JSString) :
    redirectUrl b (redirectUrl b p) = redirectUrl b p := by
  unfold redirectUrl
  by_cases h1 : jsStartsWith p ['/'] = true
  · by_cases h2 : jsStartsWith p b = true
    · simp [h1, h2]
    · simp only [h1, eq_self_iff_true, Bool.not_eq_true] at h2 ⊢
      simp [h1, h2, jsStartsWith_append b p]
  · simp only [Bool.not_eq_true] at h1
    simp [h1]

/-- Claim C8: a URL carrying a scheme (its first character is a letter,
followed by `://` and the rest) does not start with `/`, so it is passed
through unchanged. -/
theorem external_url_unchanged (b rest schemeRest : JSString) (c : Char)
    (hc : c.isAlpha = true) :
    redirectUrl b ((c :: schemeRest) ++ "://".data ++ rest)
      = (c :: schemeRest) ++ "://".data ++ rest := by
  have hcs : ('/' == c) = false := by
    cases h : ('/' == c)
    · rfl
    · exfalso
      have : c = '/' := (beq_iff_eq.mp h).symm
      rw [this] at hc
      exact absurd hc (by decide)
  apply nonabsolute_unchanged
  simp [jsStartsWith, List.isPrefixOf, hcs]

/-- Claim C8 witness: `https://example.com` under the `/v1` mount. -/
theorem external_url_unchanged_witness :
    redirectUrl "/v1".data (('h' :: "ttps".data) ++ "://".data ++ "example.com".data)
      = ('h' :: "ttps".data) ++ "://".data ++ "example.com".data :=
  external_url_unchanged _ _ _ _ (by decide)

/-- Claim C9: the rewrite is total and performs no validation: on every
mount path and every target it returns a string, namely either the target
unchanged or the mount path prepended to it. -/
theorem redirectUrl_total (b p : JSString) :
    redirectUrl b p = p ∨ redirectUrl b p = b ++ p := by
  unfold redirectUrl
  split
  · exact Or.inr rfl
  · exact Or.inl rfl

/-- Claim C10: with the empty mount path every target starts with it, so
the rewrite is the identity function. -/
theorem empty_base_identity (p : JSString) : redirectUrl [] p = p := by
  simp [redirectUrl, jsStartsWith, List.isPrefixOf]

end VersionControl
